import Mathlib

/-!
Shallow embedding of the "Social Post Generator" example application:
the scraper domain (src/domains/scraper/logic.ts), the posts domain
(src/domains/posts/logic.ts, dal.ts, models.ts, api.ts).

Machine-independent modelling conventions:
* Boom errors become the inductive `BoomError`; `statusCode` mirrors
  @hapi/boom output codes (badRequest 400, notFound 404, internal 500,
  badGateway 502).
* Network effects are explicit inputs: a fetch produces a `FetchResponse`
  (for scrapeUrl) or a `SearchResponse` (for searchTopic); the OpenAI
  completion call is a function argument `gen`; `new URL(...)` is the
  oracle `Option ParsedUrl` (none when the constructor throws).
* `Date.now()` timestamps are a `Nat` parameter `now`.
* JavaScript strings are Lean `String`s; absent attribute values
  (undefined) are encoded as "" exactly where JS would only test
  truthiness, and as `Option` where presence matters.
-/

/-- Boom error classes used by the repository, with their HTTP status. -/
inductive BoomError where
  | badRequest (msg : String)
  | notFound (msg : String)
  | internal (msg : String)
  | badGateway (msg : String)
deriving Repr, DecidableEq

def BoomError.statusCode : BoomError → Nat
  | .badRequest _ => 400
  | .notFound _ => 404
  | .internal _ => 500
  | .badGateway _ => 502

def BoomError.message : BoomError → String
  | .badRequest m => m
  | .notFound m => m
  | .internal m => m
  | .badGateway m => m

/-- Whitespace as matched by the JavaScript regex class backslash-s and by
String.prototype.trim (restricted to the code points the repository can
meet in practice). -/
def jsSpaceChar (c : Char) : Bool :=
  c = ' ' || c = '\t' || c = '\n' || c = '\r' ||
  c = '\x0b' || c = '\x0c' || c = ' '

/-- One pass of the replacement of every whitespace run by a single space,
as in replace of backslash-s+ by a space. The flag records whether the
previous character was part of a whitespace run. -/
def collapseWsAux : Bool → List Char → List Char
  | _, [] => []
  | prevSpace, c :: rest =>
    if jsSpaceChar c then
      if prevSpace then collapseWsAux true rest
      else ' ' :: collapseWsAux true rest
    else c :: collapseWsAux false rest

/-- One pass of the replacement of every newline run by a single newline. -/
def collapseNlAux : Bool → List Char → List Char
  | _, [] => []
  | prevNl, c :: rest =>
    if c = '\n' then
      if prevNl then collapseNlAux true rest
      else '\n' :: collapseNlAux true rest
    else c :: collapseNlAux false rest

/-- Drop leading and trailing whitespace, as String.prototype.trim. -/
def trimChars (l : List Char) : List Char :=
  ((l.dropWhile jsSpaceChar).reverse.dropWhile jsSpaceChar).reverse

/-- JavaScript String.prototype.trim. -/
def jsTrim (s : String) : String :=
  ⟨trimChars s.data⟩

/-- The cleanup chain applied to the extracted body text in scrapeUrl:
replace whitespace runs by one space, newline runs by one newline, trim. -/
def cleanBodyText (s : String) : String :=
  ⟨trimChars (collapseNlAux false (collapseWsAux false s.data))⟩

/-- Substring membership helper (JavaScript String.prototype.includes). -/
def containsSub : List Char → List Char → Bool
  | hay, needle =>
    if needle.isPrefixOf hay then true
    else
      match hay with
      | [] => false
      | _ :: t => containsSub t needle

/-- hay.includes needle, on strings. -/
def strContains (hay needle : String) : Bool :=
  containsSub hay.data needle.data

/-- JavaScript a or-else b where "" stands for a falsy string. -/
def jsOr (a b : String) : String :=
  if a = "" then b else a

/-- Outcome of new URL(url): the protocol and the serialized href. -/
structure ParsedUrl where
  protocol : String
  href : String
deriving Repr, DecidableEq

/-- The observable parts of the fetch response consumed by scrapeUrl.
The DOM queries cheerio performs on the HTML are abstracted into the
already-extracted attribute values (absent attributes are ""), and
bodyText is the text of body after removal of
script/style/nav/header/footer/aside/iframe/noscript. -/
structure FetchResponse where
  ok : Bool
  status : Nat
  statusText : String
  contentType : String
  ogTitle : String
  twTitle : String
  docTitle : String
  ogDescription : String
  twDescription : String
  metaDescription : String
  bodyText : String
deriving Repr, DecidableEq

/-- Result from scraping a URL (ScrapeResult in scraper/logic.ts). -/
structure ScrapeResult where
  url : String
  title : String
  description : String
  content : String
  scrapedAt : Nat
deriving Repr, DecidableEq

/-- Single search result item (SearchResultItem in scraper/logic.ts). -/
structure SearchResultItem where
  title : String
  url : String
  snippet : String
deriving Repr, DecidableEq

/-- Result from searching a topic (SearchResult in scraper/logic.ts). -/
structure SearchResult where
  query : String
  results : List SearchResultItem
  searchedAt : Nat
deriving Repr, DecidableEq

/-- One DuckDuckGo .result block as seen by the cheerio selectors:
the raw link text, the href attribute (none when absent), the raw
snippet text, and the outcome of new URL(href, searchUrl) together with
its uddg query parameter (none when the URL constructor throws; some
none when the parameter is absent). -/
structure SearchBlock where
  rawTitle : String
  href : Option String
  rawSnippet : String
  urlParse : Option (Option String)
deriving Repr, DecidableEq

/-- The observable parts of the search fetch response. -/
structure SearchResponse where
  ok : Bool
  status : Nat
  statusText : String
  blocks : List SearchBlock
deriving Repr, DecidableEq

/-- The each-loop over .result blocks: a block is kept when trimmed
title, href and trimmed snippet are all truthy and the URL parse does
not throw; the final URL is the uddg parameter when truthy, else the
raw href. After each iteration the loop breaks once 10 results are
gathered. -/
def collectStep (b : SearchBlock) (acc : List SearchResultItem) : List SearchResultItem :=
  let title := jsTrim b.rawTitle
  let snippet := jsTrim b.rawSnippet
  match b.href with
  | none => acc
  | some h =>
    if title ≠ "" ∧ h ≠ "" ∧ snippet ≠ "" then
      match b.urlParse with
      | none => acc
      | some uddgParam =>
        let finalUrl :=
          match uddgParam with
          | some u => if u = "" then h else u
          | none => h
        acc ++ [{ title := title, url := finalUrl, snippet := snippet }]
    else acc

/-- The loop over the blocks, with the post-iteration break at 10. -/
def collectResults : List SearchBlock → List SearchResultItem → List SearchResultItem
  | [], acc => acc
  | b :: rest, acc =>
    let acc' := collectStep b acc
    if acc'.length ≥ 10 then acc' else collectResults rest acc'

/-- ScraperLogic.scrapeUrl from scraper/logic.ts. The URL validation
takes the outcome of new URL(url) as the oracle `parsed`; a thrown
badRequest for a non-http(s) protocol is caught by the surrounding
catch and replaced by "Invalid URL format", exactly as in the source.
The outer try/catch re-throws Boom errors unchanged, and every error
this model can raise is a Boom error. -/
def ScraperLogic.scrapeUrl (url : String) (parsed : Option ParsedUrl)
    (resp : FetchResponse) (now : Nat) : Except BoomError ScrapeResult :=
  if url = "" then .error (.badRequest "URL is required and must be a string")
  else
    match parsed with
    | none => .error (.badRequest "Invalid URL format")
    | some p =>
      if ¬ (p.protocol = "http:" ∨ p.protocol = "https:") then
        .error (.badRequest "Invalid URL format")
      else if resp.ok = false then
        .error (.badGateway ("Failed to fetch URL: " ++ toString resp.status ++ " " ++ resp.statusText))
      else if strContains resp.contentType "text/html" = false then
        .error (.badRequest ("URL must return HTML content, got: " ++ resp.contentType))
      else
        let title := jsOr resp.ogTitle (jsOr resp.twTitle (jsOr resp.docTitle "Untitled"))
        let description := jsOr resp.ogDescription (jsOr resp.twDescription (jsOr resp.metaDescription ""))
        let cleanedText := cleanBodyText resp.bodyText
        let content :=
          if cleanedText.length > 5000 then (⟨cleanedText.data.take 5000⟩ : String) ++ "..."
          else cleanedText
        if content = "" ∨ content.length < 10 then
          .error (.badGateway "No meaningful content could be extracted from URL")
        else
          .ok { url := p.href, title := jsTrim title, description := jsTrim description,
                content := content, scrapedAt := now }

/-- ScraperLogic.searchTopic from scraper/logic.ts. -/
def ScraperLogic.searchTopic (topic : String) (resp : SearchResponse)
    (now : Nat) : Except BoomError SearchResult :=
  if topic = "" then .error (.badRequest "Topic is required and must be a string")
  else
    let trimmedTopic := jsTrim topic
    if trimmedTopic.length < 2 then
      .error (.badRequest "Topic must be at least 2 characters long")
    else if trimmedTopic.length > 500 then
      .error (.badRequest "Topic must be less than 500 characters")
    else if resp.ok = false then
      .error (.badGateway ("Search request failed: " ++ toString resp.status ++ " " ++ resp.statusText))
    else
      let results := collectResults resp.blocks []
      if results.length = 0 then
        .error (.notFound "No search results found for the given topic")
      else
        .ok { query := trimmedTopic, results := results, searchedAt := now }

/-- Source type for post generation (models.ts). -/
inductive SourceType where
  | url
  | topic
deriving Repr, DecidableEq

/-- The string value of a SourceType as interpolated into prompts. -/
def SourceType.name : SourceType → String
  | .url => "url"
  | .topic => "topic"

/-- Platform type for social media posts (models.ts). -/
inductive Platform where
  | twitter
  | linkedin
  | facebook
  | instagram
deriving Repr, DecidableEq

/-- The string value of a Platform as interpolated into prompts and
error messages. -/
def Platform.name : Platform → String
  | .twitter => "twitter"
  | .linkedin => "linkedin"
  | .facebook => "facebook"
  | .instagram => "instagram"

/-- Platform configuration for post generation (posts/logic.ts). -/
structure PlatformConfig where
  platform : Platform
  maxLength : Nat
  style : String
deriving Repr, DecidableEq

/-- PLATFORM_CONFIGS from posts/logic.ts. -/
def PLATFORM_CONFIGS : List PlatformConfig :=
  [ { platform := .twitter, maxLength := 280,
      style := "concise and engaging with hashtags" },
    { platform := .linkedin, maxLength := 3000,
      style := "professional and insightful" },
    { platform := .facebook, maxLength := 2000,
      style := "conversational and engaging" },
    { platform := .instagram, maxLength := 2200,
      style := "visual-focused with emojis and hashtags" } ]

/-- The projection of the scrapedData record that PostsLogic.generatePosts
reads: title/description/content for URL sources (with "" standing for a
JS-falsy or absent field) and the results array for topic sources. -/
structure ScrapedData where
  title : String := ""
  description : String := ""
  content : String := ""
  results : Option (List SearchResultItem) := none
deriving Repr, DecidableEq

/-- The forEach over the first five search results appending numbered
title/snippet lines to the context. -/
def addResultLines : String → List SearchResultItem → Nat → String
  | s, [], _ => s
  | s, r :: rest, i =>
    addResultLines (s ++ toString (i + 1) ++ ". " ++ r.title ++ "\n   " ++ r.snippet ++ "\n\n") rest (i + 1)

/-- Context-block construction at the top of PostsLogic.generatePosts. -/
def buildContext (source : String) (sourceType : SourceType)
    (scrapedData : Option ScrapedData) : String :=
  match sourceType with
  | .url =>
    let base := "URL: " ++ source ++ "\n\n"
    match scrapedData with
    | none => base
    | some sd =>
      let c1 := if sd.title ≠ "" then base ++ "Title: " ++ sd.title ++ "\n" else base
      let c2 := if sd.description ≠ "" then c1 ++ "Description: " ++ sd.description ++ "\n" else c1
      if sd.content ≠ "" then c2 ++ "Content: " ++ sd.content ++ "\n" else c2
  | .topic =>
    let base := "Topic: " ++ source ++ "\n\n"
    match scrapedData with
    | none => base
    | some sd =>
      match sd.results with
      | none => base
      | some rs => addResultLines (base ++ "Research Results:\n") (rs.take 5) 0

/-- The per-platform user prompt built inside PostsLogic.generatePosts. -/
def buildPrompt (sourceType : SourceType) (context : String)
    (config : PlatformConfig) : String :=
  "Create a social media post for " ++ config.platform.name ++
  " based on the following " ++ sourceType.name ++ ":\n\n" ++ context ++
  "\n\nRequirements:\n- Style: " ++ config.style ++
  "\n- Maximum length: " ++ toString config.maxLength ++
  " characters\n- Make it engaging and shareable\n- " ++
  (if config.platform = .twitter ∨ config.platform = .instagram then "Include relevant hashtags" else "") ++
  "\n\nGenerate only the post content, no explanations or additional text."

/-- A generated platform/content pair before persistence. -/
structure GeneratedPostDraft where
  platform : Platform
  content : String
deriving Repr, DecidableEq

/-- The content string extracted from a completion: message content
trimmed, with "" when the optional chain yields undefined. -/
def completionContent : Option String → String
  | some s => jsTrim s
  | none => ""

/-- One platform branch of the Promise.all in PostsLogic.generatePosts:
call the completion service, on any raised error produce the internal
GenerationFailed error naming the platform, otherwise post-process by
hard truncation to maxLength - 3 characters plus "..." when the content
exceeds the platform maximum. -/
def genOne (gen : Platform → String → Except Unit (Option String))
    (sourceType : SourceType) (context : String) (config : PlatformConfig) :
    Except BoomError GeneratedPostDraft :=
  match gen config.platform (buildPrompt sourceType context config) with
  | .error _ => .error (.internal ("Failed to generate post for " ++ config.platform.name))
  | .ok raw =>
    let content := completionContent raw
    if content.length > config.maxLength then
      .ok { platform := config.platform,
            content := (⟨content.data.take (config.maxLength - 3)⟩ : String) ++ "..." }
    else
      .ok { platform := config.platform, content := content }

/-- The Promise.all over PLATFORM_CONFIGS, determinized to list order:
the first platform whose generation call raises aborts the batch. -/
def genAll (gen : Platform → String → Except Unit (Option String))
    (sourceType : SourceType) (context : String) :
    List PlatformConfig → Except BoomError (List GeneratedPostDraft)
  | [] => .ok []
  | c :: rest =>
    match genOne gen sourceType context c with
    | .error e => .error e
    | .ok d =>
      match genAll gen sourceType context rest with
      | .error e => .error e
      | .ok ds => .ok (d :: ds)

/-- PostsLogic.generatePosts from posts/logic.ts. The OpenAI client is
the function `gen`; the configured-credential check is the boolean
`apiKeyConfigured`. -/
def PostsLogic.generatePosts (apiKeyConfigured : Bool)
    (gen : Platform → String → Except Unit (Option String))
    (source : String) (sourceType : SourceType)
    (scrapedData : Option ScrapedData) :
    Except BoomError (List GeneratedPostDraft) :=
  if apiKeyConfigured = false then .error (.internal "OpenAI API key is not configured")
  else genAll gen sourceType (buildContext source sourceType scrapedData) PLATFORM_CONFIGS

/-- Persisted generated post subdocument (models.ts GeneratedPost);
createdAt is filled by the mongoose subdocument default Date.now. -/
structure GeneratedPost where
  platform : Platform
  content : String
  createdAt : Nat
deriving Repr, DecidableEq

/-- Persisted Post aggregate (models.ts Post). -/
structure Post where
  id : String
  source : String
  sourceType : SourceType
  scrapedData : Option ScrapedData
  generatedPosts : List GeneratedPost
  createdAt : Nat
  updatedAt : Nat
deriving Repr, DecidableEq

/-- Stamp drafts with the subdocument default createdAt. -/
def stampDrafts (ds : List GeneratedPostDraft) (now : Nat) : List GeneratedPost :=
  ds.map fun d => { platform := d.platform, content := d.content, createdAt := now }

/-- CreatePostData from posts/dal.ts. -/
structure CreatePostData where
  source : String
  sourceType : SourceType
  scrapedData : Option ScrapedData
  generatedPosts : List GeneratedPostDraft
deriving Repr

/-- PostsDal.create: persist a new post; the mongoose timestamps option
sets createdAt and updatedAt to now, and the uuid default gives the new
identifier. The store is the list of persisted posts in insertion
order. -/
def PostsDal.create (st : List Post) (data : CreatePostData)
    (newId : String) (now : Nat) : Post × List Post :=
  let post : Post :=
    { id := newId, source := data.source, sourceType := data.sourceType,
      scrapedData := data.scrapedData,
      generatedPosts := stampDrafts data.generatedPosts now,
      createdAt := now, updatedAt := now }
  (post, st ++ [post])

/-- Comparator for the Mongo sort on createdAt descending. -/
def newestFirst (p q : Post) : Bool :=
  q.createdAt ≤ p.createdAt

/-- PostsDal.getAll: find().sort createdAt -1. -/
def PostsDal.getAll (st : List Post) : List Post :=
  st.mergeSort newestFirst

/-- PostsDal.getById: findOne on _id, none when absent. -/
def PostsDal.getById (st : List Post) (id : String) : Option Post :=
  st.find? fun p => p.id == id

/-- Replace the first post matching the identifier, as findOneAndUpdate
touches a single document. -/
def replaceFirst (id : String) (p' : Post) : List Post → List Post
  | [] => []
  | q :: rest => if q.id == id then p' :: rest else q :: replaceFirst id p' rest

/-- PostsDal.update: findOneAndUpdate on _id with set generatedPosts;
the timestamps option refreshes updatedAt, the subdocument default
stamps each new generated post with now; notFound when no document
matches. -/
def PostsDal.update (st : List Post) (id : String)
    (drafts : List GeneratedPostDraft) (now : Nat) :
    Except BoomError (Post × List Post) :=
  match PostsDal.getById st id with
  | none => .error (.notFound "Post not found")
  | some p =>
    let p' : Post := { p with generatedPosts := stampDrafts drafts now, updatedAt := now }
    .ok (p', replaceFirst id p' st)

/-- CreatePostInput from posts/logic.ts (the optional scrapedData of the
request body is accepted but never read by create). -/
structure CreatePostInput where
  source : String
  sourceType : SourceType
  scrapedData : Option ScrapedData := none
deriving Repr

/-- The external world consumed by the posts logic: the configured
OpenAI credential, the completion service, the URL constructor outcome
for the input source, and the two possible network responses. -/
structure Env where
  apiKeyConfigured : Bool
  gen : Platform → String → Except Unit (Option String)
  urlParse : Option ParsedUrl
  fetchResp : FetchResponse
  searchResp : SearchResponse

/-- The scrape-or-search step inside PostsLogic.create, projecting the
scraper result onto the fields generatePosts later reads. -/
def PostsLogic.scrapeFor (env : Env) (input : CreatePostInput)
    (now : Nat) : Except BoomError ScrapedData :=
  match input.sourceType with
  | .url =>
    match ScraperLogic.scrapeUrl input.source env.urlParse env.fetchResp now with
    | .ok r => .ok { title := r.title, description := r.description, content := r.content, results := none }
    | .error e => .error e
  | .topic =>
    match ScraperLogic.searchTopic input.source env.searchResp now with
    | .ok r => .ok { results := some r.results }
    | .error e => .error e

/-- PostsLogic.create from posts/logic.ts: validate, scrape or search
(wrapping any scraper failure into a badRequest), generate, persist.
The second component is the store after the call: only the final
PostsDal.create call changes it. -/
def PostsLogic.create (env : Env) (input : CreatePostInput)
    (newId : String) (now : Nat) (st : List Post) :
    Except BoomError Post × List Post :=
  if jsTrim input.source = "" then (.error (.badRequest "Source is required"), st)
  else if input.sourceType = .url ∧ env.urlParse = none then
    (.error (.badRequest "Invalid URL provided"), st)
  else
    match PostsLogic.scrapeFor env input now with
    | .error e =>
      (.error (.badRequest ("Failed to " ++
        (if input.sourceType = .url then "scrape URL" else "search topic") ++
        ": " ++ e.message)), st)
    | .ok sd =>
      match PostsLogic.generatePosts env.apiKeyConfigured env.gen input.source input.sourceType (some sd) with
      | .error e => (.error e, st)
      | .ok drafts =>
        let created := PostsDal.create st
          { source := input.source, sourceType := input.sourceType,
            scrapedData := some sd, generatedPosts := drafts } newId now
        (.ok created.1, created.2)

/-- PostsLogic.list from posts/logic.ts. -/
def PostsLogic.list (st : List Post) : List Post :=
  PostsDal.getAll st

/-- PostsLogic.getById from posts/logic.ts. -/
def PostsLogic.getById (st : List Post) (id : String) : Except BoomError Post :=
  if jsTrim id = "" then .error (.badRequest "Post ID is required")
  else
    match PostsDal.getById st id with
    | none => .error (.notFound "Post not found")
    | some p => .ok p

/-- PostsLogic.regenerate from posts/logic.ts: validate the id, look up
the post, re-generate from the stored source/sourceType/scrapedData
(the scraper is never invoked), replace the variants wholesale. -/
def PostsLogic.regenerate (env : Env) (st : List Post) (id : String)
    (now : Nat) : Except BoomError Post × List Post :=
  if jsTrim id = "" then (.error (.badRequest "Post ID is required"), st)
  else
    match PostsDal.getById st id with
    | none => (.error (.notFound "Post not found"), st)
    | some post =>
      match PostsLogic.generatePosts env.apiKeyConfigured env.gen post.source post.sourceType post.scrapedData with
      | .error e => (.error e, st)
      | .ok drafts =>
        match PostsDal.update st id drafts now with
        | .error e => (.error e, st)
        | .ok res => (.ok res.1, res.2)

/-- The api.ts handler pattern: a Boom error is answered with its own
statusCode, a success with the given success status. -/
def handlerStatus (successStatus : Nat) : Except BoomError Post → Nat
  | .ok _ => successStatus
  | .error e => e.statusCode

/-- createHandler from posts/api.ts, observed through the HTTP status
it answers with (201 on success). -/
def createHandlerStatus (env : Env) (input : CreatePostInput)
    (newId : String) (now : Nat) (st : List Post) : Nat :=
  handlerStatus 201 (PostsLogic.create env input newId now st).1

/-- The content length of a successful scrape, none on error. -/
def contentLenOf : Except BoomError ScrapeResult → Option Nat
  | .ok r => some r.content.length
  | .error _ => none

/-! Helper lemmas. -/

lemma dropWhile_eq_self_of (p : Char → Bool) (l : List Char)
    (h : ∀ c ∈ l, p c = false) : l.dropWhile p = l := by
  cases l with
  | nil => rfl
  | cons c t => simp [List.dropWhile_cons, h c (by simp)]

lemma trimChars_eq_self_of (l : List Char)
    (h : ∀ c ∈ l, jsSpaceChar c = false) : trimChars l = l := by
  unfold trimChars
  rw [dropWhile_eq_self_of _ _ h,
      dropWhile_eq_self_of _ _ (fun c hc => h c (List.mem_reverse.mp hc)),
      List.reverse_reverse]

lemma collapseWsAux_eq_self_of (b : Bool) (l : List Char)
    (h : ∀ c ∈ l, jsSpaceChar c = false) : collapseWsAux b l = l := by
  induction l generalizing b with
  | nil => rfl
  | cons c t ih =>
    have hc : jsSpaceChar c = false := h c (by simp)
    have ht : ∀ d ∈ t, jsSpaceChar d = false := fun d hd => h d (by simp [hd])
    simp [collapseWsAux, hc, ih false ht]

lemma collapseNlAux_eq_self_of (b : Bool) (l : List Char)
    (h : ∀ c ∈ l, jsSpaceChar c = false) : collapseNlAux b l = l := by
  induction l generalizing b with
  | nil => rfl
  | cons c t ih =>
    have hc : ¬ (c = '\n') := by
      intro hceq
      have := h c (by simp)
      rw [hceq] at this
      simp [jsSpaceChar] at this
    have ht : ∀ d ∈ t, jsSpaceChar d = false := fun d hd => h d (by simp [hd])
    simp [collapseNlAux, hc, ih false ht]

lemma cleanBodyText_eq_self_of (s : String)
    (h : ∀ c ∈ s.data, jsSpaceChar c = false) : cleanBodyText s = s := by
  unfold cleanBodyText
  rw [collapseWsAux_eq_self_of _ _ h, collapseNlAux_eq_self_of _ _ h,
      trimChars_eq_self_of _ h]

lemma string_mk_length (l : List Char) : String.length ⟨l⟩ = l.length := rfl

/-- The collect loop never grows past ten results when entered with
fewer than ten. -/
lemma collectStep_length (b : SearchBlock) (acc : List SearchResultItem) :
    (collectStep b acc).length = acc.length ∨
    (collectStep b acc).length = acc.length + 1 := by
  unfold collectStep
  cases b.href with
  | none => left; rfl
  | some h =>
    simp only
    split
    · cases b.urlParse with
      | none => left; rfl
      | some u => right; simp
    · left; rfl

lemma collectResults_length_le (blocks : List SearchBlock) :
    ∀ acc : List SearchResultItem, acc.length < 10 →
      (collectResults blocks acc).length ≤ 10 := by
  induction blocks with
  | nil => intro acc h; exact Nat.le_of_lt (Nat.lt_of_lt_of_le h (by omega))
  | cons b rest ih =>
    intro acc h
    unfold collectResults
    have hstep := collectStep_length b acc
    by_cases hge : (collectStep b acc).length ≥ 10
    · simp only [hge, if_pos]
      omega
    · simp only [hge, if_neg, not_false_eq_true]
      simp only [ge_iff_le, not_le] at hge
      exact ih _ hge

/-- C9. For every store state, PostsLogic.list returns exactly the
persisted posts (a permutation of the store) ordered by creation
timestamp, most recently created first. -/
theorem list_returns_all_posts_newest_first (st : List Post) :
    (PostsLogic.list st).Perm st ∧
    List.Pairwise (fun p q : Post => q.createdAt ≤ p.createdAt) (PostsLogic.list st) := by
  constructor
  · exact List.mergeSort_perm st newestFirst
  · have hs := @List.sorted_mergeSort Post newestFirst
      (fun a b c hab hbc => by
        simp only [newestFirst, decide_eq_true_eq] at *
        omega)
      (fun a b => by
        simp only [newestFirst, Bool.or_eq_true, decide_eq_true_eq]
        omega)
      st
    exact hs.imp (fun hab => by
      simp only [newestFirst, decide_eq_true_eq] at hab
      exact hab)

/-- C10. For every id that is empty or whitespace-only after trimming,
PostsLogic.getById and PostsLogic.regenerate fail with the
InvalidInput-class badRequest error, for every store state and
environment (in particular before and independently of any store
lookup), not with notFound. -/
theorem blank_id_rejected_before_lookup (st : List Post) (id : String)
    (env : Env) (now : Nat) (h : jsTrim id = "") :
    PostsLogic.getById st id = .error (.badRequest "Post ID is required") ∧
    PostsLogic.regenerate env st id now = (.error (.badRequest "Post ID is required"), st) := by
  constructor
  · simp [PostsLogic.getById, h]
  · simp [PostsLogic.regenerate, h]

/-- A null environment used to instantiate witnesses. -/
def envNull : Env :=
  { apiKeyConfigured := false,
    gen := fun _ _ => .error (),
    urlParse := none,
    fetchResp := { ok := false, status := 0, statusText := "", contentType := "",
                   ogTitle := "", twTitle := "", docTitle := "", ogDescription := "",
                   twDescription := "", metaDescription := "", bodyText := "" },
    searchResp := { ok := false, status := 0, statusText := "", blocks := [] } }

/-- Witness for C10: the whitespace-only id "  " is rejected with
badRequest on the empty store. -/
theorem blank_id_rejected_before_lookup_witness :
    PostsLogic.getById [] "  " = .error (.badRequest "Post ID is required") ∧
    PostsLogic.regenerate envNull [] "  " 0 = (.error (.badRequest "Post ID is required"), []) :=
  blank_id_rejected_before_lookup [] "  " envNull 0 (by decide)

/-- C6. For every topic whose trimmed length is below 2 or above 500,
searchTopic fails with the InvalidInput-class badRequest error, and the
outcome is identical for every network response and timestamp: the
validation happens before any network request is issued. -/
theorem searchTopic_out_of_range_invalid (topic : String)
    (resp : SearchResponse) (now : Nat)
    (h : (jsTrim topic).length < 2 ∨ 500 < (jsTrim topic).length) :
    (∃ msg, ScraperLogic.searchTopic topic resp now = .error (.badRequest msg)) ∧
    (∀ (resp2 : SearchResponse) (now2 : Nat),
      ScraperLogic.searchTopic topic resp2 now2 = ScraperLogic.searchTopic topic resp now) := by
  by_cases he : topic = ""
  · subst he
    constructor
    · exact ⟨"Topic is required and must be a string", by simp [ScraperLogic.searchTopic]⟩
    · intro resp2 now2
      simp [ScraperLogic.searchTopic]
  · rcases h with hlt | hgt
    · constructor
      · exact ⟨"Topic must be at least 2 characters long",
          by simp [ScraperLogic.searchTopic, he, hlt]⟩
      · intro resp2 now2
        simp [ScraperLogic.searchTopic, he, hlt]
    · have hnlt : ¬ (jsTrim topic).length < 2 := by omega
      constructor
      · exact ⟨"Topic must be less than 500 characters",
          by simp [ScraperLogic.searchTopic, he, hnlt, hgt]⟩
      · intro resp2 now2
        simp [ScraperLogic.searchTopic, he, hnlt, hgt]

/-- Witness for C6: a one-character topic is rejected with badRequest
regardless of the network response. -/
theorem searchTopic_out_of_range_invalid_witness :
    (∃ msg, ScraperLogic.searchTopic "x" ⟨true, 200, "OK", []⟩ 0 = .error (.badRequest msg)) ∧
    (∀ (resp2 : SearchResponse) (now2 : Nat),
      ScraperLogic.searchTopic "x" resp2 now2 = ScraperLogic.searchTopic "x" ⟨true, 200, "OK", []⟩ 0) :=
  searchTopic_out_of_range_invalid "x" ⟨true, 200, "OK", []⟩ 0 (by decide)

/-- C5. For every topic whose trimmed length is in the range 2..500,
searchTopic never fails with an InvalidInput-class badRequest; when the
search endpoint answers successfully it either returns between 1 and 10
results (collection stops at 10) or fails with the NoResults-class
notFound error. -/
theorem searchTopic_in_range_one_to_ten_or_no_results (topic : String)
    (resp : SearchResponse) (now : Nat)
    (h2 : 2 ≤ (jsTrim topic).length) (h500 : (jsTrim topic).length ≤ 500) :
    (∀ msg, ScraperLogic.searchTopic topic resp now ≠ .error (.badRequest msg)) ∧
    (resp.ok = true →
      (∃ r, ScraperLogic.searchTopic topic resp now = .ok r ∧
        1 ≤ r.results.length ∧ r.results.length ≤ 10) ∨
      ScraperLogic.searchTopic topic resp now =
        .error (.notFound "No search results found for the given topic")) := by
  have he : ¬ (topic = "") := by
    intro he
    subst he
    simp [jsTrim, trimChars] at h2
  have hnlt : ¬ (jsTrim topic).length < 2 := by omega
  have hngt : ¬ 500 < (jsTrim topic).length := by omega
  constructor
  · intro msg
    by_cases hok : resp.ok
    · by_cases hz : (collectResults resp.blocks []).length = 0
      · simp [ScraperLogic.searchTopic, he, hnlt, hngt, hok, hz]
      · simp [ScraperLogic.searchTopic, he, hnlt, hngt, hok, hz]
    · have hok' : resp.ok = false := by simpa using hok
      simp [ScraperLogic.searchTopic, he, hnlt, hngt, hok']
  · intro hok
    by_cases hz : (collectResults resp.blocks []).length = 0
    · right
      simp [ScraperLogic.searchTopic, he, hnlt, hngt, hok, hz]
    · left
      refine ⟨{ query := jsTrim topic, results := collectResults resp.blocks [],
                searchedAt := now }, ?_, ?_, ?_⟩
      · simp [ScraperLogic.searchTopic, he, hnlt, hngt, hok, hz]
      · show 1 ≤ (collectResults resp.blocks []).length
        omega
      · exact collectResults_length_le resp.blocks [] (by simp)

/-- Witness for C5: the two-character topic "ab" with an empty result
page yields the NoResults notFound error and never a badRequest. -/
theorem searchTopic_in_range_witness :
    (∀ msg, ScraperLogic.searchTopic "ab" ⟨true, 200, "OK", []⟩ 0 ≠ .error (.badRequest msg)) ∧
    ((⟨true, 200, "OK", []⟩ : SearchResponse).ok = true →
      (∃ r, ScraperLogic.searchTopic "ab" ⟨true, 200, "OK", []⟩ 0 = .ok r ∧
        1 ≤ r.results.length ∧ r.results.length ≤ 10) ∨
      ScraperLogic.searchTopic "ab" ⟨true, 200, "OK", []⟩ 0 =
        .error (.notFound "No search results found for the given topic")) :=
  searchTopic_in_range_one_to_ten_or_no_results "ab" ⟨true, 200, "OK", []⟩ 0 (by decide) (by decide)

/-- A fetch response declaring a JSON content type with success status,
used to exercise the content-type branch of scrapeUrl. -/
def respC2 : FetchResponse :=
  { ok := true, status := 200, statusText := "OK", contentType := "application/json",
    ogTitle := "", twTitle := "", docTitle := "", ogDescription := "",
    twDescription := "", metaDescription := "",
    bodyText := "plenty of meaningful body text here" }

/-- A failed fetch response for the same URL, for contrast. -/
def respC2bad : FetchResponse :=
  { ok := false, status := 500, statusText := "Internal Server Error",
    contentType := "", ogTitle := "", twTitle := "", docTitle := "",
    ogDescription := "", twDescription := "", metaDescription := "", bodyText := "" }

/-- Counterexample for C2: on a success response declaring content type
application/json, scrapeUrl fails with the 400 badRequest (InvalidInput
class), not a 5xx gateway error, while a non-success status on the same
URL yields the 502 badGateway: the two failures are in different error
classes, contrary to the claim. -/
theorem scrapeUrl_wrong_content_type_cex :
    ScraperLogic.scrapeUrl "https://example.com"
        (some ⟨"https:", "https://example.com/"⟩) respC2 0 =
      .error (.badRequest "URL must return HTML content, got: application/json") ∧
    (BoomError.badRequest "URL must return HTML content, got: application/json").statusCode = 400 ∧
    ¬ 500 ≤ (BoomError.badRequest "URL must return HTML content, got: application/json").statusCode ∧
    ScraperLogic.scrapeUrl "https://example.com"
        (some ⟨"https:", "https://example.com/"⟩) respC2bad 0 =
      .error (.badGateway "Failed to fetch URL: 500 Internal Server Error") := by
  refine ⟨rfl, by decide, by decide, rfl⟩

/-- C2 amended: for every success response whose declared content type
does not include text/html, scrapeUrl fails with the InvalidInput-class
badRequest error naming the content type — a different error class from
the badGateway (UpstreamUnavailable) used for a non-success response
status. -/
theorem scrapeUrl_wrong_content_type_badRequest (url : String) (p : ParsedUrl)
    (resp : FetchResponse) (now : Nat)
    (hu : ¬ url = "")
    (hp : p.protocol = "http:" ∨ p.protocol = "https:")
    (hok : resp.ok = true)
    (hct : strContains resp.contentType "text/html" = false) :
    ScraperLogic.scrapeUrl url (some p) resp now =
      .error (.badRequest ("URL must return HTML content, got: " ++ resp.contentType)) ∧
    (∀ resp2 : FetchResponse, resp2.ok = false →
      ScraperLogic.scrapeUrl url (some p) resp2 now =
        .error (.badGateway ("Failed to fetch URL: " ++ toString resp2.status ++ " " ++ resp2.statusText))) := by
  constructor
  · rcases hp with hp | hp <;> simp [ScraperLogic.scrapeUrl, hu, hp, hok, hct]
  · intro resp2 h2
    rcases hp with hp | hp <;> simp [ScraperLogic.scrapeUrl, hu, hp, h2]

/-- Witness for the amended C2, at the concrete JSON response. -/
theorem scrapeUrl_wrong_content_type_badRequest_witness :
    ScraperLogic.scrapeUrl "https://example.com"
        (some ⟨"https:", "https://example.com/"⟩) respC2 0 =
      .error (.badRequest ("URL must return HTML content, got: " ++ respC2.contentType)) ∧
    (∀ resp2 : FetchResponse, resp2.ok = false →
      ScraperLogic.scrapeUrl "https://example.com"
          (some ⟨"https:", "https://example.com/"⟩) resp2 0 =
        .error (.badGateway ("Failed to fetch URL: " ++ toString resp2.status ++ " " ++ resp2.statusText))) :=
  scrapeUrl_wrong_content_type_badRequest "https://example.com"
    ⟨"https:", "https://example.com/"⟩ respC2 0 (by decide) (Or.inr rfl) rfl (by decide)

lemma strLen_take_append_dots (l : List Char) (n : Nat) :
    ((⟨l.take n⟩ : String) ++ "...").length = min n l.length + 3 := by
  rw [String.length_append]
  show (l.take n).length + 3 = min n l.length + 3
  rw [List.length_take]

lemma cleanBodyText_length_data (s : String) :
    (cleanBodyText s).length = (cleanBodyText s).data.length := rfl

/-- Characterization of the success path of scrapeUrl: on a success
HTML response whose cleaned body text has at least 10 characters, the
result is the record built from the response, with the content either
the cleaned text itself or, past 5000 characters, its first 5000
characters with the three-character ellipsis appended. -/
lemma scrapeUrl_ok_shape (url : String) (p : ParsedUrl) (resp : FetchResponse) (now : Nat)
    (hu : ¬ url = "")
    (hp : p.protocol = "http:" ∨ p.protocol = "https:")
    (hok : resp.ok = true)
    (hct : strContains resp.contentType "text/html" = true)
    (hlen : 10 ≤ (cleanBodyText resp.bodyText).length) :
    ScraperLogic.scrapeUrl url (some p) resp now = .ok
      { url := p.href,
        title := jsTrim (jsOr resp.ogTitle (jsOr resp.twTitle (jsOr resp.docTitle "Untitled"))),
        description := jsTrim (jsOr resp.ogDescription (jsOr resp.twDescription (jsOr resp.metaDescription ""))),
        content :=
          if (cleanBodyText resp.bodyText).length > 5000 then
            (⟨(cleanBodyText resp.bodyText).data.take 5000⟩ : String) ++ "..."
          else cleanBodyText resp.bodyText,
        scrapedAt := now } := by
  have hcontent :
      ¬ ((if (cleanBodyText resp.bodyText).length > 5000 then
            (⟨(cleanBodyText resp.bodyText).data.take 5000⟩ : String) ++ "..."
          else cleanBodyText resp.bodyText) = "" ∨
         (if (cleanBodyText resp.bodyText).length > 5000 then
            (⟨(cleanBodyText resp.bodyText).data.take 5000⟩ : String) ++ "..."
          else cleanBodyText resp.bodyText).length < 10) := by
    by_cases ht : (cleanBodyText resp.bodyText).length > 5000
    · simp only [ht, if_pos]
      have h3 : ((⟨(cleanBodyText resp.bodyText).data.take 5000⟩ : String) ++ "...").length =
          min 5000 (cleanBodyText resp.bodyText).data.length + 3 :=
        strLen_take_append_dots _ _
      rw [← cleanBodyText_length_data] at h3
      have hmin : min 5000 (cleanBodyText resp.bodyText).length = 5000 := by omega
      rw [hmin] at h3
      push_neg
      constructor
      · intro he
        have : ((⟨(cleanBodyText resp.bodyText).data.take 5000⟩ : String) ++ "...").length = 0 := by
          rw [he]; rfl
        omega
      · omega
    · simp only [ht, if_neg, not_false_eq_true]
      push_neg
      constructor
      · intro he
        have : (cleanBodyText resp.bodyText).length = 0 := by rw [he]; rfl
        omega
      · omega
  have hprot : ¬ ¬ (p.protocol = "http:" ∨ p.protocol = "https:") := not_not_intro hp
  unfold ScraperLogic.scrapeUrl
  rw [if_neg hu]
  show (if ¬ (p.protocol = "http:" ∨ p.protocol = "https:") then _ else _) = _
  rw [if_neg hprot, hok]
  show (if (true = false) then _ else _) = _
  rw [if_neg (by simp), hct]
  show (if (true = false) then _ else _) = _
  rw [if_neg (by simp)]
  show (if _ ∨ _ then _ else _) = _
  rw [if_neg hcontent]

/-- The concrete page body: 5001 letters a, no whitespace. -/
def bodyC1 : String := ⟨List.replicate 5001 'a'⟩

/-- A success HTML response whose cleaned body text has 5001
characters. -/
def respC1 : FetchResponse :=
  { ok := true, status := 200, statusText := "OK", contentType := "text/html",
    ogTitle := "", twTitle := "", docTitle := "", ogDescription := "",
    twDescription := "", metaDescription := "", bodyText := bodyC1 }

lemma cleanBodyText_respC1 : cleanBodyText respC1.bodyText = bodyC1 := by
  apply cleanBodyText_eq_self_of
  intro c hc
  have hm : c = 'a' := (List.mem_replicate.mp hc).2
  rw [hm]
  decide

lemma cleanBodyText_respC1_length : (cleanBodyText respC1.bodyText).length = 5001 := by
  rw [cleanBodyText_respC1]
  show (List.replicate 5001 'a').length = 5001
  rw [List.length_replicate]

/-- Counterexample for C1: the cleaned text of this fetched page has
5001 characters (at least 10), yet the returned content field measures
5003 characters — the first 5000 characters plus the three-character
ellipsis — exceeding the claimed 5000 ceiling. -/
theorem scrapeUrl_truncated_content_exceeds_5000_cex :
    10 ≤ (cleanBodyText respC1.bodyText).length ∧
    contentLenOf (ScraperLogic.scrapeUrl "https://example.com"
      (some ⟨"https:", "https://example.com/"⟩) respC1 0) = some 5003 ∧
    ¬ (5003 ≤ 5000) := by
  refine ⟨by rw [cleanBodyText_respC1_length]; omega, ?_, by omega⟩
  rw [scrapeUrl_ok_shape "https://example.com" ⟨"https:", "https://example.com/"⟩ respC1 0
    (by decide) (Or.inr rfl) rfl (by decide)
    (by rw [cleanBodyText_respC1_length]; omega)]
  have ht : (cleanBodyText respC1.bodyText).length > 5000 := by
    rw [cleanBodyText_respC1_length]; omega
  simp only [contentLenOf, ht, if_pos]
  have h3 := strLen_take_append_dots (cleanBodyText respC1.bodyText).data 5000
  rw [← cleanBodyText_length_data, cleanBodyText_respC1_length] at h3
  rw [h3]
  have hmin : (5000 : Nat) ⊓ 5001 + 3 = 5003 := by omega
  rw [hmin]

/-- C1 amended: for every success HTML response whose cleaned body text
has at least 10 characters, scrapeUrl succeeds and the content field
has at most 5003 characters: it is the cleaned text itself when that
text is within 5000 characters, and otherwise its first 5000 characters
with a 3-character ellipsis appended, for a total of exactly 5003. -/
theorem scrapeUrl_content_capped_at_5003 (url : String) (p : ParsedUrl)
    (resp : FetchResponse) (now : Nat)
    (hu : ¬ url = "")
    (hp : p.protocol = "http:" ∨ p.protocol = "https:")
    (hok : resp.ok = true)
    (hct : strContains resp.contentType "text/html" = true)
    (hlen : 10 ≤ (cleanBodyText resp.bodyText).length) :
    ∃ r, ScraperLogic.scrapeUrl url (some p) resp now = .ok r ∧
      r.content.length ≤ 5003 ∧
      ((cleanBodyText resp.bodyText).length ≤ 5000 →
        r.content = cleanBodyText resp.bodyText) ∧
      (5000 < (cleanBodyText resp.bodyText).length →
        r.content = (⟨(cleanBodyText resp.bodyText).data.take 5000⟩ : String) ++ "..." ∧
        r.content.length = 5003) := by
  refine ⟨_, scrapeUrl_ok_shape url p resp now hu hp hok hct hlen, ?_, ?_, ?_⟩
  · by_cases ht : (cleanBodyText resp.bodyText).length > 5000
    · simp only [ht, if_pos]
      have h3 := strLen_take_append_dots (cleanBodyText resp.bodyText).data 5000
      rw [← cleanBodyText_length_data] at h3
      rw [h3]
      omega
    · simp only [ht, if_neg, not_false_eq_true]
      omega
  · intro hle
    have ht : ¬ (cleanBodyText resp.bodyText).length > 5000 := by omega
    simp only [ht, if_neg, not_false_eq_true]
  · intro hgt
    have ht : (cleanBodyText resp.bodyText).length > 5000 := hgt
    simp only [ht, if_pos, true_and]
    have h3 := strLen_take_append_dots (cleanBodyText resp.bodyText).data 5000
    rw [← cleanBodyText_length_data] at h3
    rw [h3]
    omega

/-- Witness for the amended C1, at the concrete 5001-character body. -/
theorem scrapeUrl_content_capped_at_5003_witness :
    ∃ r, ScraperLogic.scrapeUrl "https://example.com"
        (some ⟨"https:", "https://example.com/"⟩) respC1 0 = .ok r ∧
      r.content.length ≤ 5003 ∧
      ((cleanBodyText respC1.bodyText).length ≤ 5000 →
        r.content = cleanBodyText respC1.bodyText) ∧
      (5000 < (cleanBodyText respC1.bodyText).length →
        r.content = (⟨(cleanBodyText respC1.bodyText).data.take 5000⟩ : String) ++ "..." ∧
        r.content.length = 5003) :=
  scrapeUrl_content_capped_at_5003 "https://example.com"
    ⟨"https:", "https://example.com/"⟩ respC1 0 (by decide) (Or.inr rfl) rfl (by decide)
    (by rw [cleanBodyText_respC1_length]; omega)

/-- Every successful genAll output comes index-free from some config of
the list it was run over. -/
lemma genAll_ok_mem (gen : Platform → String → Except Unit (Option String))
    (sourceType : SourceType) (context : String) :
    ∀ (cfgs : List PlatformConfig) (ds : List GeneratedPostDraft),
      genAll gen sourceType context cfgs = .ok ds →
      ∀ d ∈ ds, ∃ cfg ∈ cfgs, genOne gen sourceType context cfg = .ok d := by
  intro cfgs
  induction cfgs with
  | nil =>
    intro ds h d hd
    simp only [genAll] at h
    cases h
    simp at hd
  | cons c rest ih =>
    intro ds h d hd
    simp only [genAll] at h
    cases hone : genOne gen sourceType context c with
    | error e => rw [hone] at h; cases h
    | ok d0 =>
      rw [hone] at h
      cases hrest : genAll gen sourceType context rest with
      | error e => rw [hrest] at h; cases h
      | ok ds0 =>
        rw [hrest] at h
        cases h
        rcases List.mem_cons.mp hd with hd | hd
        · exact ⟨c, by simp, by rw [hone, hd]⟩
        · rcases ih ds0 hrest d hd with ⟨cfg, hcfg, hc⟩
          exact ⟨cfg, by simp [hcfg], hc⟩

/-- The post-processing guarantee of one platform branch: the produced
content never exceeds the platform maximum, and oversized upstream
content is hard-truncated to maxLength - 3 characters plus the
3-character ellipsis. -/
lemma genOne_spec (gen : Platform → String → Except Unit (Option String))
    (sourceType : SourceType) (context : String) (cfg : PlatformConfig)
    (d : GeneratedPostDraft)
    (h3 : 3 ≤ cfg.maxLength)
    (h : genOne gen sourceType context cfg = .ok d) :
    d.platform = cfg.platform ∧
    d.content.length ≤ cfg.maxLength ∧
    (∀ raw, gen cfg.platform (buildPrompt sourceType context cfg) = .ok raw →
      cfg.maxLength < (completionContent raw).length →
      d.content = (⟨(completionContent raw).data.take (cfg.maxLength - 3)⟩ : String) ++ "...") := by
  unfold genOne at h
  cases hg : gen cfg.platform (buildPrompt sourceType context cfg) with
  | error e => rw [hg] at h; cases h
  | ok raw =>
    rw [hg] at h
    simp only at h
    by_cases hlong : (completionContent raw).length > cfg.maxLength
    · rw [if_pos hlong] at h
      cases h
      refine ⟨rfl, ?_, ?_⟩
      · show ((⟨(completionContent raw).data.take (cfg.maxLength - 3)⟩ : String) ++ "...").length ≤ cfg.maxLength
        rw [strLen_take_append_dots]
        have : (completionContent raw).length = (completionContent raw).data.length := rfl
        omega
      · intro raw2 hraw2 _
        obtain rfl : raw = raw2 := Except.ok.inj hraw2
        rfl
    · rw [if_neg hlong] at h
      cases h
      refine ⟨rfl, ?_, ?_⟩
      · show (completionContent raw).length ≤ cfg.maxLength
        omega
      · intro raw2 hraw2 hgt
        obtain rfl : raw = raw2 := Except.ok.inj hraw2
        omega

/-- C4. Every variant returned by a successful generatePosts call has
content within its platform's configured maximum length; when the
upstream generator returned longer (trimmed) text, the content is
exactly the first maxLength - 3 characters of it with the 3-character
ellipsis appended — never a regenerated text. -/
theorem generatePosts_respects_platform_max (apiKeyConfigured : Bool)
    (gen : Platform → String → Except Unit (Option String))
    (source : String) (sourceType : SourceType) (scrapedData : Option ScrapedData)
    (posts : List GeneratedPostDraft)
    (h : PostsLogic.generatePosts apiKeyConfigured gen source sourceType scrapedData = .ok posts) :
    ∀ gp ∈ posts, ∃ cfg ∈ PLATFORM_CONFIGS,
      gp.platform = cfg.platform ∧
      gp.content.length ≤ cfg.maxLength ∧
      (∀ raw, gen cfg.platform (buildPrompt sourceType (buildContext source sourceType scrapedData) cfg) = .ok raw →
        cfg.maxLength < (completionContent raw).length →
        gp.content = (⟨(completionContent raw).data.take (cfg.maxLength - 3)⟩ : String) ++ "...") := by
  intro gp hgp
  unfold PostsLogic.generatePosts at h
  cases hk : apiKeyConfigured with
  | false => rw [hk] at h; simp at h
  | true =>
    rw [hk] at h
    simp only [Bool.true_eq_false, if_neg, not_false_eq_true] at h
    rcases genAll_ok_mem gen sourceType (buildContext source sourceType scrapedData)
      PLATFORM_CONFIGS posts h gp hgp with ⟨cfg, hcfg, hone⟩
    have h3 : 3 ≤ cfg.maxLength := by
      have : ∀ c ∈ PLATFORM_CONFIGS, 3 ≤ c.maxLength := by decide
      exact this cfg hcfg
    rcases genOne_spec gen sourceType _ cfg gp h3 hone with ⟨hplat, hle, htr⟩
    exact ⟨cfg, hcfg, hplat, hle, htr⟩

/-- A generator stub answering every platform with the same completion. -/
def genHello : Platform → String → Except Unit (Option String) :=
  fun _ _ => .ok (some "hello")

/-- Witness for C4: with a constant "hello" completion, generatePosts
succeeds and its twitter variant satisfies the cap and truncation
property. -/
theorem generatePosts_respects_platform_max_witness :
    ∃ cfg ∈ PLATFORM_CONFIGS,
      (⟨Platform.twitter, "hello"⟩ : GeneratedPostDraft).platform = cfg.platform ∧
      (⟨Platform.twitter, "hello"⟩ : GeneratedPostDraft).content.length ≤ cfg.maxLength ∧
      (∀ raw, genHello cfg.platform (buildPrompt SourceType.url (buildContext "https://example.com" SourceType.url none) cfg) = .ok raw →
        cfg.maxLength < (completionContent raw).length →
        (⟨Platform.twitter, "hello"⟩ : GeneratedPostDraft).content =
          (⟨(completionContent raw).data.take (cfg.maxLength - 3)⟩ : String) ++ "...") :=
  generatePosts_respects_platform_max true genHello "https://example.com" SourceType.url none
    [⟨Platform.twitter, "hello"⟩, ⟨Platform.linkedin, "hello"⟩,
     ⟨Platform.facebook, "hello"⟩, ⟨Platform.instagram, "hello"⟩]
    rfl ⟨Platform.twitter, "hello"⟩ (by simp)

/-- C7. For every store and environment: regenerate depends only on the
generator and its credential (never on the scraper oracles, so
extraction is not repeated); an absent id fails with notFound; and for
a present post whose regeneration succeeds, the returned post keeps
source, sourceType, scrapedData, id and createdAt unchanged while the
whole generatedVariants list and updatedAt are replaced. -/
theorem regenerate_preserves_source_fields (env : Env) (st : List Post)
    (id : String) (now : Nat) (h : ¬ jsTrim id = "") :
    (∀ env2 : Env, env2.apiKeyConfigured = env.apiKeyConfigured → env2.gen = env.gen →
      PostsLogic.regenerate env2 st id now = PostsLogic.regenerate env st id now) ∧
    (PostsDal.getById st id = none →
      PostsLogic.regenerate env st id now = (.error (.notFound "Post not found"), st)) ∧
    (∀ post drafts, PostsDal.getById st id = some post →
      PostsLogic.generatePosts env.apiKeyConfigured env.gen post.source post.sourceType post.scrapedData = .ok drafts →
      ∃ p2, (PostsLogic.regenerate env st id now).1 = .ok p2 ∧
        p2.source = post.source ∧
        p2.sourceType = post.sourceType ∧
        p2.scrapedData = post.scrapedData ∧
        p2.id = post.id ∧
        p2.createdAt = post.createdAt ∧
        p2.generatedPosts = stampDrafts drafts now ∧
        p2.updatedAt = now) := by
  refine ⟨?_, ?_, ?_⟩
  · intro env2 h1 h2
    unfold PostsLogic.regenerate
    rw [h1, h2]
  · intro hnone
    simp [PostsLogic.regenerate, h, hnone]
  · intro post drafts hfind hgen
    refine ⟨{ post with generatedPosts := stampDrafts drafts now, updatedAt := now }, ?_,
      rfl, rfl, rfl, rfl, rfl, rfl, rfl⟩
    simp [PostsLogic.regenerate, h, hfind, hgen, PostsDal.update]

/-- A generator stub used by the regenerate witness. -/
def genV7 : Platform → String → Except Unit (Option String) :=
  fun _ _ => .ok (some "hi")

/-- The stored post used by the regenerate witness. -/
def postW7 : Post :=
  { id := "p1", source := "https://example.com", sourceType := .url,
    scrapedData := some { title := "T", description := "D", content := "C", results := none },
    generatedPosts := [⟨.twitter, "old", 1⟩],
    createdAt := 1, updatedAt := 1 }

/-- The environment used by the regenerate witness. -/
def envW7 : Env :=
  { apiKeyConfigured := true, gen := genV7, urlParse := none,
    fetchResp := { ok := false, status := 0, statusText := "", contentType := "",
                   ogTitle := "", twTitle := "", docTitle := "", ogDescription := "",
                   twDescription := "", metaDescription := "", bodyText := "" },
    searchResp := { ok := false, status := 0, statusText := "", blocks := [] } }

/-- The drafts genV7 produces for postW7. -/
def draftsW7 : List GeneratedPostDraft :=
  [⟨.twitter, "hi"⟩, ⟨.linkedin, "hi"⟩, ⟨.facebook, "hi"⟩, ⟨.instagram, "hi"⟩]

/-- Witness for C7: regenerating the concrete stored post keeps its
source fields and replaces variants and updatedAt. -/
theorem regenerate_preserves_source_fields_witness :
    ∃ p2, (PostsLogic.regenerate envW7 [postW7] "p1" 9).1 = .ok p2 ∧
      p2.source = postW7.source ∧
      p2.sourceType = postW7.sourceType ∧
      p2.scrapedData = postW7.scrapedData ∧
      p2.id = postW7.id ∧
      p2.createdAt = postW7.createdAt ∧
      p2.generatedPosts = stampDrafts draftsW7 9 ∧
      p2.updatedAt = 9 :=
  (regenerate_preserves_source_fields envW7 [postW7] "p1" 9 (by decide)).2.2
    postW7 draftsW7 rfl rfl

/-- A failing genOne only ever fails with the internal GenerationFailed
error naming its platform. -/
lemma genOne_error_shape (gen : Platform → String → Except Unit (Option String))
    (sourceType : SourceType) (context : String) (c : PlatformConfig) (e : BoomError)
    (h : genOne gen sourceType context c = .error e) :
    e = .internal ("Failed to generate post for " ++ c.platform.name) := by
  unfold genOne at h
  cases hg : gen c.platform (buildPrompt sourceType context c) with
  | error u => rw [hg] at h; exact (Except.error.inj h).symm
  | ok raw =>
    rw [hg] at h
    simp only at h
    split at h <;> cases h

/-- If some platform of the list always fails, genAll over that list
fails with the GenerationFailed error of some platform of the list. -/
lemma genAll_first_failure (gen : Platform → String → Except Unit (Option String))
    (sourceType : SourceType) (context : String) :
    ∀ (cfgs : List PlatformConfig) (p : PlatformConfig), p ∈ cfgs →
      (∀ prompt, gen p.platform prompt = .error ()) →
      ∃ q ∈ cfgs, genAll gen sourceType context cfgs =
        .error (.internal ("Failed to generate post for " ++ q.platform.name)) := by
  intro cfgs
  induction cfgs with
  | nil => intro p hp; simp at hp
  | cons c rest ih =>
    intro p hp hfail
    cases hone : genOne gen sourceType context c with
    | error e =>
      have he := genOne_error_shape gen sourceType context c e hone
      exact ⟨c, by simp, by simp only [genAll, hone, he]⟩
    | ok d =>
      have hpc : ¬ (p = c) := by
        intro hpc
        subst hpc
        unfold genOne at hone
        rw [hfail (buildPrompt sourceType context p)] at hone
        cases hone
      have hprest : p ∈ rest := by
        rcases List.mem_cons.mp hp with h1 | h1
        · exact absurd h1 hpc
        · exact h1
      rcases ih p hprest hfail with ⟨q, hq, heq⟩
      exact ⟨q, by simp [hq], by simp only [genAll, hone, heq]⟩

/-- C8. If any configured platform's generation call raises during
create (after successful validation and extraction), the whole batch
aborts with the internal GenerationFailed error identifying a platform
of the configuration, and the store is left exactly unchanged: no post
is persisted. -/
theorem create_aborts_and_persists_nothing_on_generation_failure
    (env : Env) (input : CreatePostInput) (newId : String) (now : Nat)
    (st : List Post) (p : PlatformConfig) (sd : ScrapedData)
    (hsource : ¬ jsTrim input.source = "")
    (hurl : input.sourceType = .url → ¬ env.urlParse = none)
    (hscrape : PostsLogic.scrapeFor env input now = .ok sd)
    (hkey : env.apiKeyConfigured = true)
    (hp : p ∈ PLATFORM_CONFIGS)
    (hfail : ∀ prompt, env.gen p.platform prompt = .error ()) :
    ∃ q ∈ PLATFORM_CONFIGS,
      PostsLogic.create env input newId now st =
        (.error (.internal ("Failed to generate post for " ++ q.platform.name)), st) := by
  rcases genAll_first_failure env.gen input.sourceType
    (buildContext input.source input.sourceType (some sd)) PLATFORM_CONFIGS p hp hfail
    with ⟨q, hq, heq⟩
  have hgp : PostsLogic.generatePosts env.apiKeyConfigured env.gen input.source
      input.sourceType (some sd) =
      .error (.internal ("Failed to generate post for " ++ q.platform.name)) := by
    unfold PostsLogic.generatePosts
    rw [hkey]
    simpa using heq
  have hc : ¬ (input.sourceType = .url ∧ env.urlParse = none) := by
    rintro ⟨h1, h2⟩
    exact hurl h1 h2
  refine ⟨q, hq, ?_⟩
  simp [PostsLogic.create, hsource, hc, hscrape, hgp]

/-- The environment used by the C8 witness: extraction succeeds via the
topic search, but every generation call raises. -/
def envW8 : Env :=
  { apiKeyConfigured := true, gen := fun _ _ => .error (), urlParse := none,
    fetchResp := { ok := false, status := 0, statusText := "", contentType := "",
                   ogTitle := "", twTitle := "", docTitle := "", ogDescription := "",
                   twDescription := "", metaDescription := "", bodyText := "" },
    searchResp := { ok := true, status := 200, statusText := "OK",
                    blocks := [{ rawTitle := "Result", href := some "https://r.example",
                                 rawSnippet := "Snippet", urlParse := some none }] } }

/-- The scraped data envW8's search yields for the topic "ab". -/
def sdW8 : ScrapedData :=
  { results := some [{ title := "Result", url := "https://r.example", snippet := "Snippet" }] }

/-- Witness for C8: on a store with one prior post, the failing
generator aborts creation with GenerationFailed and the store keeps
exactly its prior contents. -/
theorem create_aborts_on_generation_failure_witness :
    ∃ q ∈ PLATFORM_CONFIGS,
      PostsLogic.create envW8 { source := "ab", sourceType := .topic } "new" 5 [postW7] =
        (.error (.internal ("Failed to generate post for " ++ q.platform.name)), [postW7]) :=
  create_aborts_and_persists_nothing_on_generation_failure envW8
    { source := "ab", sourceType := .topic } "new" 5 [postW7]
    ⟨.twitter, 280, "concise and engaging with hashtags"⟩ sdW8
    (by decide) (by intro h; cases h) rfl rfl (by simp [PLATFORM_CONFIGS])
    (fun _ => rfl)

/-- The environment of the C3 counterexample: the extraction fetch
fails with a 503, so the scraper raises the badGateway
UpstreamUnavailable error. -/
def envC3 : Env :=
  { apiKeyConfigured := true, gen := fun _ _ => .ok (some "post"),
    urlParse := some ⟨"https:", "https://example.com/"⟩,
    fetchResp := { ok := false, status := 503, statusText := "Service Unavailable",
                   contentType := "", ogTitle := "", twTitle := "", docTitle := "",
                   ogDescription := "", twDescription := "", metaDescription := "",
                   bodyText := "" },
    searchResp := { ok := false, status := 0, statusText := "", blocks := [] } }

/-- The create input of the C3 counterexample. -/
def inputC3 : CreatePostInput :=
  { source := "https://example.com", sourceType := .url }

/-- Counterexample for C3: the scraper's badGateway (UpstreamUnavailable)
error does not propagate unchanged — PostsLogic.create catches it and
rethrows a badRequest, and the HTTP boundary therefore answers 400, a
4xx status, not a 5xx one. -/
theorem create_maps_extractor_error_to_400_cex :
    PostsLogic.create envC3 inputC3 "id1" 0 [] =
      (.error (.badRequest "Failed to scrape URL: Failed to fetch URL: 503 Service Unavailable"), []) ∧
    createHandlerStatus envC3 inputC3 "id1" 0 [] = 400 ∧
    ¬ 500 ≤ createHandlerStatus envC3 inputC3 "id1" 0 [] := by
  refine ⟨rfl, rfl, by decide⟩

/-- C3 amended: every Content Extractor error raised during post
creation is caught inside PostsLogic.create and rewrapped as an
InvalidInput-class badRequest carrying the original message, so the
HTTP boundary translates it to 400 (a 4xx status), never to a
5xx-class gateway status; the store is unchanged. -/
theorem create_rewraps_extractor_errors_as_badRequest (env : Env)
    (input : CreatePostInput) (newId : String) (now : Nat) (st : List Post)
    (e : BoomError)
    (hsource : ¬ jsTrim input.source = "")
    (hurl : input.sourceType = .url → ¬ env.urlParse = none)
    (hscrape : PostsLogic.scrapeFor env input now = .error e) :
    PostsLogic.create env input newId now st =
      (.error (.badRequest ("Failed to " ++
        (if input.sourceType = .url then "scrape URL" else "search topic") ++
        ": " ++ e.message)), st) ∧
    createHandlerStatus env input newId now st = 400 := by
  have hc : ¬ (input.sourceType = .url ∧ env.urlParse = none) := by
    rintro ⟨h1, h2⟩
    exact hurl h1 h2
  have h1 : PostsLogic.create env input newId now st =
      (.error (.badRequest ("Failed to " ++
        (if input.sourceType = .url then "scrape URL" else "search topic") ++
        ": " ++ e.message)), st) := by
    simp [PostsLogic.create, hsource, hc, hscrape]
  refine ⟨h1, ?_⟩
  simp [createHandlerStatus, h1, handlerStatus, BoomError.statusCode]

/-- Witness for the amended C3, at the concrete 503 fetch failure. -/
theorem create_rewraps_extractor_errors_witness :
    PostsLogic.create envC3 inputC3 "id1" 0 [] =
      (.error (.badRequest ("Failed to " ++
        (if inputC3.sourceType = .url then "scrape URL" else "search topic") ++
        ": " ++ (BoomError.badGateway "Failed to fetch URL: 503 Service Unavailable").message)), []) ∧
    createHandlerStatus envC3 inputC3 "id1" 0 [] = 400 :=
  create_rewraps_extractor_errors_as_badRequest envC3 inputC3 "id1" 0 []
    (.badGateway "Failed to fetch URL: 503 Service Unavailable")
    (by decide) (fun _ h => by cases h) rfl
